import Mathlib

/-
  Verification of the UPnP database adapter (UpnpDatabasePlugin.cxx).

  Strings are modelled as lists of characters (`Str`); remote servers as
  records of pure functions standing for the transport primitives
  (readDir / getMetadata / search); failures (C++ exceptions) as `Except`.
  Visitor callbacks are modelled by their presence flags, and a traversal
  returns the list of callback invocations (`VisitEvent`) in order.
-/

namespace Upnp

abbrev Str := List Char

/-- Character data of a string literal. -/
def str (s : String) : Str := s.data

/-- UPnPDirObject::Type. -/
inductive ObjType
  | UNKNOWN
  | ITEM
  | CONTAINER
  deriving DecidableEq

/-- UPnPDirObject::ItemClass. -/
inductive ItemClass
  | UNKNOWN
  | MUSIC
  | PLAYLIST
  deriving DecidableEq

/-- One remote node (UPnPDirObject): id, parent id, name, kind, item class,
resource url and (abstracted) tag metadata. -/
structure UPnPDirObject where
  id : Str
  parent_id : Str
  name : Str
  type : ObjType
  item_class : ItemClass
  url : Str
  tag : Nat
  deriving DecidableEq

/-- LightSong as constructed by this plugin: display uri, tag payload and
the real resource uri. -/
structure LightSong where
  uri : Str
  tag : Nat
  real_uri : Str
  deriving DecidableEq

/-- ContentDirectoryService: one server's transport primitives, modelled as
pure functions (the network is an external collaborator). -/
structure ContentDirectoryService where
  friendlyName : Str
  readDir : Str → List UPnPDirObject
  getMetadata : Str → List UPnPDirObject
  search : Str → Str → List UPnPDirObject
  searchCaps : List Str

/-- Tag types relevant to the query translator; `ANY` models
TAG_NUM_OF_ITEM_TYPES (the wildcard), `OTHER` any tag without a mapping in
the UPnP tag table. -/
inductive TagType
  | ARTIST
  | ALBUM_ARTIST
  | TITLE
  | OTHER
  | ANY
  deriving DecidableEq

/-- ISongFilter items: the code handles TagSongFilter via dynamic_cast and
silently skips every other implementation (`other`). -/
inductive FilterItem
  | tagFilter (tag : TagType) (foldCase : Bool) (value : Str)
  | other
  deriving DecidableEq

/-- SongFilter: the ordered items (used by the query translator) and the
client-side match predicate (SongFilter::Match, an external collaborator,
kept abstract). -/
structure SongFilter where
  items : List FilterItem
  matchFn : LightSong → Bool

/-- DatabaseSelection: uri, recursion flag and optional filter. -/
structure Selection where
  uri : Str
  recursive : Bool
  filter : Option SongFilter

/-- Which of the three visitor callbacks were supplied. -/
structure Callbacks where
  hasDir : Bool
  hasSong : Bool
  hasPlaylist : Bool

/-- Errors thrown by the plugin: DatabaseError(NOT_FOUND, msg) and the
std::runtime_error("Bad resource") of ReadNode. -/
inductive UpnpError
  | notFound (msg : Str)
  | badResource
  deriving DecidableEq

/-- One visitor-callback invocation. -/
inductive VisitEvent
  | dir (uri : Str)
  | song (s : LightSong)
  | playlist (uri : Str)
  deriving DecidableEq

/-- Modelled from the spec: `Split(haystack, ch)` of util/StringSplit.hxx —
split at the first slash, returning the part before it and the remainder
(the remainder is empty when there is no slash; the null/empty distinction
of std::string_view is immaterial to every use in this file). -/
def splitOnSlash : Str → Str × Str
  | [] => ([], [])
  | c :: cs =>
    if c = '/' then ([], cs)
    else ((c :: (splitOnSlash cs).1), (splitOnSlash cs).2)

/-- The root sentinel id ("0"). -/
def rootid : Str := str "0"

/-- AfterRootIdSegment: if the uri starts with "0/" followed by a non-empty
remainder, return that remainder (the object id), else nothing. -/
def AfterRootIdSegment (uri : Str) : Option Str :=
  if rootid.length + 2 ≤ uri.length ∧ uri.take rootid.length = rootid ∧
      uri.get? rootid.length = some '/'
  then some (uri.drop (rootid.length + 1))
  else none

/-- Body of dquote: backslash-escape backslashes and double quotes. -/
def dquoteBody : Str → Str
  | [] => []
  | c :: cs =>
    if c = '\\' ∨ c = '"' then '\\' :: c :: dquoteBody cs
    else c :: dquoteBody cs

/-- dquote: double-quote a string, adding internal backslash escaping. -/
def dquote (s : Str) : Str := '"' :: dquoteBody s ++ ['"']

/-- songPath: the synthetic path `servername/0/objid` for search results. -/
def songPath (servername objid : Str) : Str :=
  servername ++ str "/" ++ rootid ++ str "/" ++ objid

/-- ReadNode: fetch metadata for one object id; anything but exactly one
result is a protocol violation ("Bad resource"). -/
def ReadNode (server : ContentDirectoryService) (objid : Str) :
    Except UpnpError UPnPDirObject :=
  match server.getMetadata objid with
  | [o] => .ok o
  | _ => .error UpnpError.badResource

/-- Modelled from the spec: UPnPDirContent::FindObject — find the child
whose name equals the segment (exact match, first hit in listing order). -/
def FindObject (objs : List UPnPDirObject) (name : Str) : Option UPnPDirObject :=
  objs.find? (fun o => o.name == name)

/-- Helper for termination: the remainder of a split is strictly shorter
than a non-empty input. -/
theorem splitOnSlash_snd_lt :
    ∀ u : Str, u ≠ [] → (splitOnSlash u).2.length < u.length := by
  intro u
  induction u with
  | nil => intro h; exact absurd rfl h
  | cons c cs ih =>
    intro _
    by_cases hc : c = '/'
    · simp [splitOnSlash, hc]
    · by_cases hcs : cs = []
      · subst hcs; simp [splitOnSlash, hc]
      · have := ih hcs
        simp only [splitOnSlash, if_neg hc, List.length_cons]
        omega

/-- The while loop of Namei: split off the next segment, look it up among
the current container's children, fail when absent, return it when the
path is exhausted, fail when it is not a container, else descend. -/
def NameiLoop (server : ContentDirectoryService) (objid : Str) (uri : Str) :
    Except UpnpError UPnPDirObject :=
  match FindObject (server.readDir objid) (splitOnSlash uri).1 with
  | none => .error (UpnpError.notFound (str "No such object"))
  | some child =>
    if h : (splitOnSlash uri).2 = [] then .ok child
    else if child.type ≠ ObjType.CONTAINER then
      .error (UpnpError.notFound (str "Not a container"))
    else NameiLoop server child.id (splitOnSlash uri).2
termination_by uri.length
decreasing_by
  apply splitOnSlash_snd_lt
  intro hnil
  rw [hnil] at h
  exact h rfl

/-- Namei: resolve a slash-separated in-server path to an object, starting
from the root sentinel; the empty path yields the root object itself. -/
def Namei (server : ContentDirectoryService) (uri : Str) :
    Except UpnpError UPnPDirObject :=
  if uri = [] then ReadNode server rootid
  else NameiLoop server rootid uri

/-- Modelled from the spec: the static UPnP tag-name table
(tag_table_lookup over upnp_tags, which lives outside this core); entries
follow the spec's examples, unmapped tags yield nothing. -/
def tagTableLookup : TagType → Option Str
  | TagType.ARTIST => some (str "dc:creator")
  | TagType.TITLE => some (str "dc:title")
  | _ => none

/-- The comparison operator chosen by FoldCase: case-insensitive
"contains" when set, exact equality otherwise. -/
def opStr (foldCase : Bool) : Str :=
  if foldCase then str " contains " else str " = "

/-- One iteration of the wildcard loop of SearchSongs: the flag component
records whether this is still the first advertised field (no " or " yet). -/
def condOrStep (foldCase : Bool) (value : Str) (acc : Str × Bool) (cap : Str) :
    Str × Bool :=
  ((if acc.2 then acc.1 else acc.1 ++ str " or ") ++ cap ++ opStr foldCase ++
     dquote value, false)

/-- One iteration of the predicate loop of SearchSongs, appending to the
accumulated condition string: non-tag filters are skipped; the wildcard tag
expands over all advertised fields; TAG_ALBUM_ARTIST is folded into
TAG_ARTIST before the table lookup; unmapped tags are skipped. -/
def condStep (searchcaps : List Str) (cond : Str) : FilterItem → Str
  | FilterItem.other => cond
  | FilterItem.tagFilter tag foldCase value =>
    if tag = TagType.ANY then
      (searchcaps.foldl (condOrStep foldCase value)
        ((if cond = [] then cond else cond ++ str " and ") ++ ['('], true)).1
        ++ [')']
    else
      match tagTableLookup (if tag = TagType.ALBUM_ARTIST then TagType.ARTIST else tag) with
      | none => cond
      | some name =>
        (if cond = [] then cond else cond ++ str " and ") ++ name ++
          opStr foldCase ++ dquote value

/-- The full condition string built by SearchSongs from the filter items,
left to right. -/
def buildCond (searchcaps : List Str) (items : List FilterItem) : Str :=
  items.foldl (condStep searchcaps) []

/-- SearchSongs (query overload): no filter or no advertised searchable
fields yields no results; otherwise run the remote search with the built
condition string. -/
def SearchSongsContent (server : ContentDirectoryService) (objid : Str)
    (sel : Selection) : List UPnPDirObject :=
  match sel.filter with
  | none => []
  | some f =>
    if server.searchCaps = [] then []
    else server.search objid (buildCond server.searchCaps f.items)

/-- Modelled from the spec: DatabaseSelection::Match — no filter matches
everything, otherwise apply the filter's match predicate. -/
def SelectionMatch (sel : Selection) (song : LightSong) : Bool :=
  match sel.filter with
  | none => true
  | some f => f.matchFn song

/-- The LightSong built for a visited object: display uri, the object's
tag payload, and the object's resource url (UpnpSong and visitSong build
identical field values). -/
def mkUpnpSong (object : UPnPDirObject) (uri : Str) : LightSong :=
  { uri := uri, tag := object.tag, real_uri := object.url }

/-- visitSong: do nothing without a song callback; otherwise build the
LightSong and invoke the callback only when the Selection filter matches. -/
def visitSong (meta : UPnPDirObject) (path : Str) (sel : Selection)
    (cb : Callbacks) : List VisitEvent :=
  if ¬cb.hasSong then []
  else if SelectionMatch sel (mkUpnpSong meta path) then
    [VisitEvent.song (mkUpnpSong meta path)]
  else []

/-- SearchSongs (visitor overload): without a song callback do nothing;
otherwise visit each music item of the search results under its synthetic
path, skipping containers, playlists and unknown items. -/
def SearchSongsVisit (server : ContentDirectoryService) (objid : Str)
    (sel : Selection) (cb : Callbacks) : List VisitEvent :=
  if ¬cb.hasSong then []
  else (SearchSongsContent server objid sel).flatMap (fun dirent =>
    if dirent.type ≠ ObjType.ITEM ∨ dirent.item_class ≠ ItemClass.MUSIC then []
    else visitSong dirent (songPath server.friendlyName dirent.id) sel cb)

/-- VisitItem: music items go through visitSong; the playlist case of the
original has an empty body (no playlist callback is ever invoked), and
unknown item classes are ignored. -/
def VisitItem (object : UPnPDirObject) (uri : Str) (sel : Selection)
    (cb : Callbacks) : List VisitEvent :=
  match object.item_class with
  | ItemClass.MUSIC => visitSong object uri sel cb
  | ItemClass.PLAYLIST => []
  | ItemClass.UNKNOWN => []

/-- VisitObject: containers produce a directory callback when one was
supplied, items are dispatched through VisitItem. The UNKNOWN case is
std::unreachable() in the original (undefined behavior); it is modelled as
producing nothing and theorems about listings exclude it by hypothesis. -/
def VisitObject (object : UPnPDirObject) (uri : Str) (sel : Selection)
    (cb : Callbacks) : List VisitEvent :=
  match object.type with
  | ObjType.UNKNOWN => []
  | ObjType.CONTAINER => if cb.hasDir then [VisitEvent.dir uri] else []
  | ObjType.ITEM => VisitItem object uri sel cb

/-- Modelled from the spec: PathTraitsUTF8::Build — append a child name to
the current path with a slash separator. -/
def Build (a b : Str) : Str := a ++ '/' :: b

/-- The base display uri of a listing: the selection's uri, or the server's
friendly name when the selection uri is empty. -/
def baseUri (server : ContentDirectoryService) (sel : Selection) : Str :=
  if sel.uri = [] then server.friendlyName else sel.uri

/-- VisitServer: the per-server traversal engine. The path exactly equal
to the root sentinel is reserved and visits nothing; a synthetic path
fetches the object by id (only when a song callback was supplied) and
requires a music item; otherwise the path is resolved by Namei, and either
one bounded search is run (recursive with filter) or the resolved object /
its immediate children are dispatched. -/
def VisitServer (server : ContentDirectoryService) (uri : Str)
    (sel : Selection) (cb : Callbacks) : Except UpnpError (List VisitEvent) :=
  if uri = rootid then .ok []
  else match AfterRootIdSegment uri with
  | some id =>
    if cb.hasSong then
      match ReadNode server id with
      | .error e => .error e
      | .ok dirent =>
        if dirent.type ≠ ObjType.ITEM ∨ dirent.item_class ≠ ItemClass.MUSIC then
          .error (UpnpError.notFound (str "Not found"))
        else
          .ok (visitSong dirent (songPath server.friendlyName dirent.id) sel cb)
    else .ok []
  | none =>
    match Namei server uri with
    | .error e => .error e
    | .ok tdirent =>
      if sel.recursive ∧ sel.filter.isSome then
        .ok (SearchSongsVisit server tdirent.id sel cb)
      else if tdirent.type = ObjType.ITEM then
        .ok (VisitItem tdirent (baseUri server sel) sel cb)
      else
        .ok ((server.readDir tdirent.id).flatMap (fun dirent =>
          VisitObject dirent (Build (baseUri server sel) dirent.name) sel cb))

/-- Modelled from the spec: the server registry lookup
(UPnPDeviceDirectory::GetServer) — resolve a server name against the list
of discovered servers, failing when unknown. -/
def GetServer (servers : List ContentDirectoryService) (name : Str) :
    Except UpnpError ContentDirectoryService :=
  match servers.find? (fun s => s.friendlyName == name) with
  | some s => .ok s
  | none => .error (UpnpError.notFound (str "Server not found"))

/-- GetSong: split off the server name, require both parts non-empty, look
the server up, then fetch the object — directly by id for a synthetic
path, via Namei otherwise — and wrap it as a song under the requested uri
(no check of the object's kind is performed here). -/
def GetSong (servers : List ContentDirectoryService) (uri : Str) :
    Except UpnpError LightSong :=
  if (splitOnSlash uri).1 = [] ∨ (splitOnSlash uri).2 = [] then
    .error (UpnpError.notFound (str "No such song"))
  else match GetServer servers (splitOnSlash uri).1 with
  | .error e => .error e
  | .ok server =>
    match
      (match AfterRootIdSegment (splitOnSlash uri).2 with
       | none => Namei server (splitOnSlash uri).2
       | some id => ReadNode server id) with
    | .error e => .error e
    | .ok dirent => .ok (mkUpnpSong dirent uri)

/-- The root fan-out of Visit: for each discovered server emit a directory
callback when one was supplied, and recurse into the server with the empty
path when recursion was requested. -/
def VisitRoot (servers : List ContentDirectoryService) (sel : Selection)
    (cb : Callbacks) : Except UpnpError (List VisitEvent) :=
  match servers with
  | [] => .ok []
  | server :: rest =>
    match (if sel.recursive then VisitServer server [] sel cb else .ok []) with
    | .error e => .error e
    | .ok sub =>
      match VisitRoot rest sel cb with
      | .error e => .error e
      | .ok tail =>
        .ok ((if cb.hasDir then [VisitEvent.dir server.friendlyName] else [])
          ++ sub ++ tail)

/-- Visit: empty selection uri fans out over all servers, otherwise the
first path segment selects the server and the rest is visited there. The
DatabaseVisitorHelper wrapper (an external collaborator that may sort or
window the song callbacks afterwards) is outside this core and omitted. -/
def Visit (servers : List ContentDirectoryService) (sel : Selection)
    (cb : Callbacks) : Except UpnpError (List VisitEvent) :=
  if sel.uri = [] then VisitRoot servers sel cb
  else match GetServer servers (splitOnSlash sel.uri).1 with
  | .error e => .error e
  | .ok server => VisitServer server (splitOnSlash sel.uri).2 sel cb

/-! Reference definitions written from the spec's wording, to be compared
with the embedded code above. -/

/-- Modelled from the spec: the list of slash-separated segments of a
path, as consumed by the resolver ("repeatedly split the remaining path at
the first slash"); a trailing slash adds nothing, matching the loop's
empty-remainder exit. -/
def segsOfAux : Str → Str → List Str
  | [], acc => [acc.reverse]
  | c :: cs, acc =>
    if c = '/' then
      acc.reverse :: (if cs = [] then [] else segsOfAux cs [])
    else segsOfAux cs (c :: acc)

/-- Modelled from the spec: segments of a path; the empty path has none. -/
def segsOf : Str → List Str
  | [] => []
  | u@(_ :: _) => segsOfAux u []

/-- Modelled from the spec (path resolver): list the current container's
children, find the child named like the next segment (fail NotFound when
absent), return it when the path is exhausted, descend when it is a
container, fail NotFound otherwise. -/
def resolveStep (server : ContentDirectoryService) (objid : Str) (seg : Str) :
    List Str → Except UpnpError UPnPDirObject := fun rest =>
  match FindObject (server.readDir objid) seg with
  | none => .error (UpnpError.notFound (str "No such object"))
  | some child =>
    match rest with
    | [] => .ok child
    | seg2 :: rest2 =>
      if child.type = ObjType.CONTAINER then resolveStep server child.id seg2 rest2
      else .error (UpnpError.notFound (str "Not a container"))

/-- Modelled from the spec: resolve a segment list starting from the root
sentinel id; the empty path designates the root object itself. -/
def resolveSegs (server : ContentDirectoryService) :
    List Str → Except UpnpError UPnPDirObject
  | [] => ReadNode server rootid
  | seg :: rest => resolveStep server rootid seg rest

/-- Join a list of strings with a separator. -/
def joinWith (sep : Str) : List Str → Str
  | [] => []
  | [x] => x
  | x :: y :: xs => x ++ sep ++ joinWith sep (y :: xs)

/-- Helper: all but the first element of a join, each piece preceded by
the separator. -/
def tailJoin (sep : Str) : List Str → Str
  | [] => []
  | x :: xs => sep ++ x ++ tailJoin sep xs

/-- Modelled from the spec (query translator): the translation of one
predicate — nothing for non-tag predicates; a parenthesized OR over every
advertised searchable field for the wildcard; a tag-table lookup otherwise
(album artist folded into artist, unmapped tags dropped); fold_case picks
"contains" over "="; values double-quoted with backslash escaping. -/
def predTranslate (caps : List Str) : FilterItem → Option Str
  | FilterItem.other => none
  | FilterItem.tagFilter tag foldCase value =>
    if tag = TagType.ANY then
      some ('(' :: joinWith (str " or ")
        (caps.map (fun cap => cap ++ opStr foldCase ++ dquote value)) ++ [')'])
    else
      match tagTableLookup (if tag = TagType.ALBUM_ARTIST then TagType.ARTIST else tag) with
      | none => none
      | some name => some (name ++ opStr foldCase ++ dquote value)

/-- Modelled from the spec: the whole query — the translated predicates
joined with "and", left to right, in filter order. -/
def translateQuerySpec (caps : List Str) (items : List FilterItem) : Str :=
  joinWith (str " and ") (items.filterMap (predTranslate caps))

/-- Modelled from the spec (amended §4.5 listing): the events produced for
one resolved item — a song callback for a music item when the callback is
present and the Selection filter matches; nothing for playlist or unknown
items. -/
def itemEventsSpec (d : UPnPDirObject) (path : Str) (sel : Selection)
    (cb : Callbacks) : List VisitEvent :=
  match d.item_class with
  | ItemClass.MUSIC =>
    if cb.hasSong ∧ SelectionMatch sel (mkUpnpSong d path) = true then
      [VisitEvent.song (mkUpnpSong d path)]
    else []
  | _ => []

/-- Modelled from the spec (amended §4.5 listing): the events produced for
one listed child — a directory callback for a container when that callback
is present, item dispatch for items. -/
def childEventsSpec (sel : Selection) (cb : Callbacks) (path : Str)
    (d : UPnPDirObject) : List VisitEvent :=
  match d.type with
  | ObjType.CONTAINER => if cb.hasDir then [VisitEvent.dir path] else []
  | ObjType.ITEM => itemEventsSpec d path sel cb
  | ObjType.UNKNOWN => []

/-- Modelled from the spec (amended search mode): one song callback per
music item of the bounded search's results that passes the Selection
filter (and only when the song callback is present), under the synthetic
path of the item's object id; nothing for non-music results. -/
def searchEventsSpec (server : ContentDirectoryService) (objid : Str)
    (sel : Selection) (cb : Callbacks) : List VisitEvent :=
  (SearchSongsContent server objid sel).flatMap (fun d =>
    if d.type = ObjType.ITEM ∧ d.item_class = ItemClass.MUSIC ∧
        cb.hasSong ∧
        SelectionMatch sel (mkUpnpSong d (songPath server.friendlyName d.id)) = true
    then [VisitEvent.song (mkUpnpSong d (songPath server.friendlyName d.id))]
    else [])

/-! Concrete fixtures used by counterexamples and witnesses. -/

/-- A server with no content, for building fixtures. -/
def emptyServer (name : Str) : ContentDirectoryService :=
  { friendlyName := name, readDir := fun _ => [], getMetadata := fun _ => [],
    search := fun _ _ => [], searchCaps := [] }

/-- A music item with the given id, name and tag payload. -/
def musicObj (i n : Str) (t : Nat) : UPnPDirObject :=
  { id := i, parent_id := rootid, name := n, type := ObjType.ITEM,
    item_class := ItemClass.MUSIC, url := str "http://m", tag := t }

/-- A container with the given id and name. -/
def containerObj (i n : Str) : UPnPDirObject :=
  { id := i, parent_id := rootid, name := n, type := ObjType.CONTAINER,
    item_class := ItemClass.UNKNOWN, url := str "http://c", tag := 0 }

/-- A playlist item with the given id and name. -/
def playlistObj (i n : Str) : UPnPDirObject :=
  { id := i, parent_id := rootid, name := n, type := ObjType.ITEM,
    item_class := ItemClass.PLAYLIST, url := str "http://p", tag := 0 }

/-- An item of unknown class with the given id and name. -/
def unknownItemObj (i n : Str) : UPnPDirObject :=
  { id := i, parent_id := rootid, name := n, type := ObjType.ITEM,
    item_class := ItemClass.UNKNOWN, url := str "http://u", tag := 0 }

/-- All three callbacks supplied. -/
def allCb : Callbacks := { hasDir := true, hasSong := true, hasPlaylist := true }

/-- C3 fixture: the root holds one container `D`; searching under it
returns one music item (tag 2) and one container; the filter's client-side
match accepts only tag 1, so the music result is rejected client-side. -/
def server3 : ContentDirectoryService :=
  { emptyServer (str "s") with
    readDir := fun _ => [containerObj (str "d1") (str "D")],
    search := fun _ _ => [musicObj (str "m1") (str "M") 2,
                          containerObj (str "c9") (str "X")],
    searchCaps := [str "dc:title"] }

/-- C3 fixture: a filter with one title predicate whose client-side match
accepts only songs with tag 1. -/
def filter3 : SongFilter :=
  { items := [FilterItem.tagFilter TagType.TITLE false (str "x")],
    matchFn := fun song => song.tag == 1 }

/-- C3 fixture: a recursive, filtered selection under `s/D`. -/
def sel3 : Selection := { uri := str "s/D", recursive := true, filter := some filter3 }

/-- C4 fixture: the root holds one playlist item `P`. -/
def server4 : ContentDirectoryService :=
  { emptyServer (str "s") with
    readDir := fun _ => [playlistObj (str "p1") (str "P")] }

/-- C4 fixture: a plain non-recursive, unfiltered selection of `s/P`. -/
def sel4 : Selection := { uri := str "s/P", recursive := false, filter := none }

/-- C4 witness fixture: the root holds container `D`; `D` holds a
sub-container, a music item and a playlist item. -/
def server4w : ContentDirectoryService :=
  { emptyServer (str "s") with
    readDir := fun objid =>
      if objid == rootid then [containerObj (str "d1") (str "D")]
      else if objid == str "d1" then
        [containerObj (str "c1") (str "Sub"),
         musicObj (str "m1") (str "A") 3,
         playlistObj (str "p2") (str "B")]
      else [] }

/-- C4 witness fixture: a non-recursive, unfiltered selection of `s/D`. -/
def sel4w : Selection := { uri := str "s/D", recursive := false, filter := none }

/-- C5 fixture: `getMetadata` yields one container, whatever the id. -/
def server5 : ContentDirectoryService :=
  { emptyServer (str "s") with
    getMetadata := fun _ => [containerObj (str "c1") (str "C")] }

/-- C5 witness fixture: `getMetadata` yields one playlist item. -/
def server5w : ContentDirectoryService :=
  { emptyServer (str "t") with
    getMetadata := fun _ => [playlistObj (str "p1") (str "P")] }

/-- C5 witness fixture: a plain selection of the synthetic path. -/
def sel5 : Selection := { uri := str "t/0/p1", recursive := false, filter := none }

/-- C6 fixture: the root listing holds a music item whose name is the
sentinel "0" itself. -/
def server6 : ContentDirectoryService :=
  { emptyServer (str "s") with
    readDir := fun _ => [musicObj (str "z1") (str "0") 4] }

/-- C6 witness fixture: a server with an empty root listing. -/
def server6w : ContentDirectoryService := emptyServer (str "s")

/-- C6 witness fixture: a plain selection. -/
def sel6 : Selection := { uri := str "q", recursive := false, filter := none }

/-- C8 witness fixture: `getMetadata` yields no object at all. -/
def server8 : ContentDirectoryService := emptyServer (str "s")

/-- C9 witness fixture: `getMetadata` yields one music item with tag 3. -/
def server9 : ContentDirectoryService :=
  { emptyServer (str "s") with
    getMetadata := fun _ => [musicObj (str "m9") (str "M") 3] }

/-- C9 witness fixture: a filter whose client-side match accepts tag 3. -/
def filter9 : SongFilter :=
  { items := [], matchFn := fun song => song.tag == 3 }

/-- C9 witness fixture: selection of the synthetic path `s/0/m9`. -/
def sel9 : Selection :=
  { uri := str "s/0/m9", recursive := false, filter := some filter9 }

/-- C10 witness fixture: selection of the synthetic path `s/0/x`. -/
def sel10 : Selection := { uri := str "s/0/x", recursive := false, filter := none }

/-- C10 witness fixture: no song callback supplied. -/
def noSongCb : Callbacks := { hasDir := true, hasSong := false, hasPlaylist := true }

/-! Helper lemmas. -/

theorem splitOnSlash_append (a b : Str) (h : '/' ∉ a) :
    splitOnSlash (a ++ '/' :: b) = (a, b) := by
  induction a with
  | nil => simp [splitOnSlash]
  | cons c cs ih =>
    have hc : c ≠ '/' := fun hc => h (hc ▸ List.mem_cons_self c cs)
    have hcs : '/' ∉ cs := fun hm => h (List.mem_cons_of_mem c hm)
    simp [splitOnSlash, hc, ih hcs]

theorem segsOf_of_ne_nil (u : Str) (h : u ≠ []) : segsOf u = segsOfAux u [] := by
  cases u with
  | nil => exact absurd rfl h
  | cons c cs => rfl

theorem segsOfAux_eq (u : Str) : ∀ acc : Str,
    segsOfAux u acc = (acc.reverse ++ (splitOnSlash u).1) ::
      (if (splitOnSlash u).2 = [] then [] else segsOf (splitOnSlash u).2) := by
  induction u with
  | nil => intro acc; simp [segsOfAux, splitOnSlash]
  | cons c cs ih =>
    intro acc
    by_cases hc : c = '/'
    · subst hc
      simp only [segsOfAux, if_pos rfl, splitOnSlash, List.append_nil]
      by_cases hcs : cs = []
      · simp [hcs]
      · simp [hcs, segsOf_of_ne_nil cs hcs]
    · simp only [segsOfAux, if_neg hc, splitOnSlash, ih (c :: acc),
        List.reverse_cons, List.append_assoc, List.cons_append, List.nil_append]

theorem segsOf_step (u : Str) (h : u ≠ []) :
    segsOf u = (splitOnSlash u).1 :: segsOf (splitOnSlash u).2 := by
  rw [segsOf_of_ne_nil u h, segsOfAux_eq u []]
  by_cases hs : (splitOnSlash u).2 = []
  · simp [hs, segsOf]
  · simp [hs]

theorem nameiLoop_resolve (server : ContentDirectoryService) :
    ∀ (n : Nat) (objid u : Str), u.length ≤ n → u ≠ [] →
      NameiLoop server objid u =
        resolveStep server objid (splitOnSlash u).1 (segsOf (splitOnSlash u).2) := by
  intro n
  induction n with
  | zero =>
    intro objid u hlen hne
    cases u with
    | nil => exact absurd rfl hne
    | cons c cs => simp at hlen
  | succ n ih =>
    intro objid u hlen hne
    rw [NameiLoop]
    rw [resolveStep]
    cases hf : FindObject (server.readDir objid) (splitOnSlash u).1 with
    | none => rfl
    | some child =>
      dsimp only
      by_cases hsnd : (splitOnSlash u).2 = []
      · rw [dif_pos hsnd, hsnd]
        rfl
      · rw [dif_neg hsnd, segsOf_step _ hsnd]
        have hlt := splitOnSlash_snd_lt u hne
        have hlen2 : (splitOnSlash u).2.length ≤ n := by omega
        by_cases ht : child.type = ObjType.CONTAINER
        · simp only [ht, ne_eq, not_true_eq_false, if_false, if_pos rfl,
            if_true, Bool.false_eq_true]
          exact ih child.id (splitOnSlash u).2 hlen2 hsnd
        · simp [ht]

theorem namei_resolve (server : ContentDirectoryService) (uri : Str) :
    Namei server uri = resolveSegs server (segsOf uri) := by
  by_cases h : uri = []
  · subst h; rfl
  · rw [Namei, if_neg h, segsOf_step uri h, resolveSegs,
      nameiLoop_resolve server uri.length rootid uri le_rfl h]

theorem joinWith_cons (sep : Str) (x : Str) (xs : List Str) :
    joinWith sep (x :: xs) = x ++ tailJoin sep xs := by
  induction xs generalizing x with
  | nil => simp [joinWith, tailJoin]
  | cons y ys ih =>
    rw [joinWith, ih y, tailJoin]
    simp [List.append_assoc]

theorem foldl_condOr_false (fc : Bool) (v : Str) :
    ∀ (caps : List Str) (acc : Str),
      (caps.foldl (condOrStep fc v) (acc, false)).1 =
        acc ++ tailJoin (str " or ")
          (caps.map (fun cap => cap ++ opStr fc ++ dquote v)) := by
  intro caps
  induction caps with
  | nil => intro acc; simp [tailJoin]
  | cons c cs ih =>
    intro acc
    rw [List.foldl_cons]
    show (cs.foldl (condOrStep fc v) (condOrStep fc v (acc, false) c)).1 = _
    rw [condOrStep]
    simp only [Bool.false_eq_true, if_false]
    rw [ih]
    simp [tailJoin, List.append_assoc]

theorem foldl_condOr_true (fc : Bool) (v : Str) (caps : List Str) (acc : Str) :
    (caps.foldl (condOrStep fc v) (acc, true)).1 =
      acc ++ joinWith (str " or ")
        (caps.map (fun cap => cap ++ opStr fc ++ dquote v)) := by
  cases caps with
  | nil => simp [joinWith]
  | cons c cs =>
    rw [List.foldl_cons]
    show (cs.foldl (condOrStep fc v) (condOrStep fc v (acc, true) c)).1 = _
    rw [condOrStep]
    simp only [if_true]
    rw [foldl_condOr_false, List.map_cons, joinWith_cons]
    simp [List.append_assoc]

theorem condStep_skip (caps : List Str) (i : FilterItem)
    (h : predTranslate caps i = none) (cond : Str) :
    condStep caps cond i = cond := by
  cases i with
  | other => rfl
  | tagFilter tag fc v =>
    by_cases ht : tag = TagType.ANY
    · simp [predTranslate, ht] at h
    · simp only [predTranslate, if_neg ht] at h
      cases hl : tagTableLookup
          (if tag = TagType.ALBUM_ARTIST then TagType.ARTIST else tag) with
      | none => simp [condStep, if_neg ht, hl]
      | some name => rw [hl] at h; simp at h

theorem condStep_emit (caps : List Str) (i : FilterItem) (s : Str)
    (h : predTranslate caps i = some s) (cond : Str) :
    condStep caps cond i =
      (if cond = [] then [] else cond ++ str " and ") ++ s := by
  cases i with
  | other => simp [predTranslate] at h
  | tagFilter tag fc v =>
    by_cases ht : tag = TagType.ANY
    · simp only [predTranslate, if_pos ht, Option.some.injEq] at h
      subst h
      simp only [condStep, if_pos ht]
      rw [foldl_condOr_true]
      by_cases hc : cond = []
      · simp [hc]
      · simp [hc, List.append_assoc]
    · simp only [predTranslate, if_neg ht] at h
      cases hl : tagTableLookup
          (if tag = TagType.ALBUM_ARTIST then TagType.ARTIST else tag) with
      | none => rw [hl] at h; exact Option.noConfusion h
      | some name =>
        rw [hl, Option.some.injEq] at h
        subst h
        simp only [condStep, if_neg ht, hl]
        by_cases hc : cond = []
        · simp [hc]
        · simp [hc, List.append_assoc]

theorem predTranslate_ne_nil (caps : List Str) (i : FilterItem) (s : Str)
    (h : predTranslate caps i = some s) : s ≠ [] := by
  cases i with
  | other => simp [predTranslate] at h
  | tagFilter tag fc v =>
    by_cases ht : tag = TagType.ANY
    · simp only [predTranslate, if_pos ht, Option.some.injEq] at h
      subst h
      simp
    · simp only [predTranslate, if_neg ht] at h
      cases hl : tagTableLookup
          (if tag = TagType.ALBUM_ARTIST then TagType.ARTIST else tag) with
      | none => rw [hl] at h; exact Option.noConfusion h
      | some name =>
        rw [hl, Option.some.injEq] at h
        subst h
        intro hnil
        have hd : dquote v = [] := (List.append_eq_nil.mp hnil).2
        simp [dquote] at hd

theorem foldl_condStep_ne (caps : List Str) :
    ∀ (items : List FilterItem) (cond : Str), cond ≠ [] →
      items.foldl (condStep caps) cond =
        cond ++ tailJoin (str " and ") (items.filterMap (predTranslate caps)) := by
  intro items
  induction items with
  | nil => intro cond _; simp [tailJoin]
  | cons i is ih =>
    intro cond h
    rw [List.foldl_cons]
    cases hp : predTranslate caps i with
    | none =>
      rw [condStep_skip caps i hp cond, ih cond h]
      simp [List.filterMap_cons, hp]
    | some s =>
      rw [condStep_emit caps i s hp cond, if_neg h]
      have h2 : cond ++ str " and " ++ s ≠ [] := by
        intro hh
        exact h (List.append_eq_nil.mp (List.append_eq_nil.mp hh).1).1
      rw [ih _ h2]
      simp [List.filterMap_cons, hp, tailJoin, List.append_assoc]

theorem buildCond_eq (caps : List Str) (items : List FilterItem) :
    buildCond caps items = translateQuerySpec caps items := by
  induction items with
  | nil => rfl
  | cons i is ih =>
    rw [buildCond, List.foldl_cons]
    cases hp : predTranslate caps i with
    | none =>
      rw [condStep_skip caps i hp []]
      rw [show is.foldl (condStep caps) [] = buildCond caps is from rfl, ih]
      simp [translateQuerySpec, List.filterMap_cons, hp]
    | some s =>
      rw [condStep_emit caps i s hp []]
      simp only [ite_true, List.nil_append]
      rw [foldl_condStep_ne caps is s (predTranslate_ne_nil caps i s hp)]
      simp [translateQuerySpec, List.filterMap_cons, hp, joinWith_cons]

theorem flatMap_congr {α β : Type} (l : List α) (f g : α → List β)
    (h : ∀ d ∈ l, f d = g d) : l.flatMap f = l.flatMap g := by
  induction l with
  | nil => rfl
  | cons x xs ih =>
    simp only [List.flatMap_cons]
    rw [h x (List.mem_cons_self x xs), ih (fun d hd => h d (List.mem_cons_of_mem x hd))]

theorem flatMap_nil_fun {α β : Type} (l : List α) :
    l.flatMap (fun _ => ([] : List β)) = [] := by
  induction l with
  | nil => rfl
  | cons x xs ih => simp [List.flatMap_cons, ih]

theorem visitSong_eq (meta : UPnPDirObject) (path : Str) (sel : Selection)
    (cb : Callbacks) :
    visitSong meta path sel cb =
      if cb.hasSong ∧ SelectionMatch sel (mkUpnpSong meta path) = true then
        [VisitEvent.song (mkUpnpSong meta path)]
      else [] := by
  rw [visitSong]
  by_cases hs : cb.hasSong
  · by_cases hm : SelectionMatch sel (mkUpnpSong meta path) = true
    · simp [hs, hm]
    · simp [hs, hm]
  · simp [hs]

theorem VisitItem_eq_spec (d : UPnPDirObject) (u : Str) (sel : Selection)
    (cb : Callbacks) : VisitItem d u sel cb = itemEventsSpec d u sel cb := by
  cases hcl : d.item_class with
  | MUSIC => simp [VisitItem, itemEventsSpec, hcl, visitSong_eq]
  | PLAYLIST => simp [VisitItem, itemEventsSpec, hcl]
  | UNKNOWN => simp [VisitItem, itemEventsSpec, hcl]

theorem VisitObject_eq_spec (d : UPnPDirObject) (u : Str) (sel : Selection)
    (cb : Callbacks) (h : d.type ≠ ObjType.UNKNOWN) :
    VisitObject d u sel cb = childEventsSpec sel cb u d := by
  cases ht : d.type with
  | UNKNOWN => exact absurd ht h
  | CONTAINER => simp [VisitObject, childEventsSpec, ht]
  | ITEM => simp [VisitObject, childEventsSpec, ht, VisitItem_eq_spec]

theorem SearchSongsVisit_eq_spec (server : ContentDirectoryService)
    (objid : Str) (sel : Selection) (cb : Callbacks) :
    SearchSongsVisit server objid sel cb = searchEventsSpec server objid sel cb := by
  by_cases hs : cb.hasSong
  · rw [SearchSongsVisit, if_neg (by simp [hs]), searchEventsSpec]
    apply flatMap_congr
    intro d _
    by_cases hty : d.type = ObjType.ITEM
    · by_cases hcl : d.item_class = ItemClass.MUSIC
      · simp [hty, hcl, visitSong_eq, hs]
      · simp [hty, hcl]
    · simp [hty]
  · rw [SearchSongsVisit, if_pos (by simp [hs]), searchEventsSpec]
    rw [flatMap_congr _ _ (fun _ => []) (fun d _ => by simp [hs]),
      flatMap_nil_fun]

theorem afterRootId_encode (id : Str) (h : id ≠ []) :
    AfterRootIdSegment ('0' :: '/' :: id) = some id := by
  have hpos : 0 < id.length := List.length_pos.mpr h
  rw [AfterRootIdSegment, if_pos]
  · rfl
  · refine ⟨?_, rfl, rfl⟩
    simp only [rootid, str, List.length_cons]
    simp [String.data]
    omega

theorem afterRootId_rootid : AfterRootIdSegment rootid = none := by decide

theorem afterRootId_ne_rootid (uri id : Str)
    (h : AfterRootIdSegment uri = some id) : uri ≠ rootid := by
  intro heq
  rw [heq, afterRootId_rootid] at h
  exact Option.noConfusion h

theorem songPath_eq (a b : Str) : songPath a b = a ++ '/' :: '0' :: '/' :: b := by
  simp [songPath, rootid, str, List.append_assoc, List.singleton_append]

theorem visitSong_mem (meta : UPnPDirObject) (path : Str) (sel : Selection)
    (cb : Callbacks) (s : LightSong)
    (h : VisitEvent.song s ∈ visitSong meta path sel cb) :
    SelectionMatch sel s = true := by
  rw [visitSong_eq] at h
  by_cases hc : cb.hasSong ∧ SelectionMatch sel (mkUpnpSong meta path) = true
  · rw [if_pos hc] at h
    have hs := List.mem_singleton.mp h
    have : s = mkUpnpSong meta path := by
      injection hs
    rw [this]
    exact hc.2
  · rw [if_neg hc] at h
    cases h

theorem VisitItem_mem (d : UPnPDirObject) (u : Str) (sel : Selection)
    (cb : Callbacks) (s : LightSong)
    (h : VisitEvent.song s ∈ VisitItem d u sel cb) :
    SelectionMatch sel s = true := by
  rw [VisitItem] at h
  cases hcl : d.item_class with
  | MUSIC => rw [hcl] at h; exact visitSong_mem d u sel cb s h
  | PLAYLIST => rw [hcl] at h; cases h
  | UNKNOWN => rw [hcl] at h; cases h

theorem VisitObject_mem (d : UPnPDirObject) (u : Str) (sel : Selection)
    (cb : Callbacks) (s : LightSong)
    (h : VisitEvent.song s ∈ VisitObject d u sel cb) :
    SelectionMatch sel s = true := by
  rw [VisitObject] at h
  cases ht : d.type with
  | UNKNOWN => rw [ht] at h; cases h
  | CONTAINER =>
    rw [ht] at h
    by_cases hd : cb.hasDir
    · rw [if_pos hd] at h
      have := List.mem_singleton.mp h
      exact VisitEvent.noConfusion this
    · rw [if_neg hd] at h
      cases h
  | ITEM => rw [ht] at h; exact VisitItem_mem d u sel cb s h

theorem SearchSongsVisit_mem (server : ContentDirectoryService) (objid : Str)
    (sel : Selection) (cb : Callbacks) (s : LightSong)
    (h : VisitEvent.song s ∈ SearchSongsVisit server objid sel cb) :
    SelectionMatch sel s = true := by
  rw [SearchSongsVisit] at h
  by_cases hs : cb.hasSong
  · rw [if_neg (by simp [hs])] at h
    obtain ⟨d, _, hmem⟩ := List.mem_flatMap.mp h
    by_cases hc : d.type ≠ ObjType.ITEM ∨ d.item_class ≠ ItemClass.MUSIC
    · rw [if_pos hc] at hmem; cases hmem
    · rw [if_neg hc] at hmem
      exact visitSong_mem d _ sel cb s hmem
  · rw [if_pos (by simp [hs])] at h
    cases h

theorem VisitServer_mem (server : ContentDirectoryService) (uri : Str)
    (sel : Selection) (cb : Callbacks) (evs : List VisitEvent) (s : LightSong)
    (h : VisitServer server uri sel cb = .ok evs)
    (hmem : VisitEvent.song s ∈ evs) : SelectionMatch sel s = true := by
  rw [VisitServer] at h
  split at h
  · cases h; cases hmem
  · split at h
    case h_1 id heq =>
      split at h
      · split at h
        case h_1 e heq2 => exact Except.noConfusion h
        case h_2 dirent heq2 =>
          split at h
          · exact Except.noConfusion h
          · cases h
            exact visitSong_mem dirent _ sel cb s hmem
      · cases h; cases hmem
    case h_2 heq =>
      split at h
      case h_1 e heq2 => exact Except.noConfusion h
      case h_2 tdirent heq2 =>
        split at h
        · cases h
          exact SearchSongsVisit_mem server tdirent.id sel cb s hmem
        · split at h
          · cases h
            exact VisitItem_mem tdirent _ sel cb s hmem
          · cases h
            obtain ⟨d, _, hmem2⟩ := List.mem_flatMap.mp hmem
            exact VisitObject_mem d _ sel cb s hmem2

theorem VisitRoot_mem (sel : Selection) (cb : Callbacks) (s : LightSong) :
    ∀ (servers : List ContentDirectoryService) (evs : List VisitEvent),
      VisitRoot servers sel cb = .ok evs → VisitEvent.song s ∈ evs →
      SelectionMatch sel s = true := by
  intro servers
  induction servers with
  | nil =>
    intro evs h hmem
    rw [VisitRoot] at h
    cases h
    cases hmem
  | cons server rest ih =>
    intro evs h hmem
    rw [VisitRoot] at h
    split at h
    case h_1 e heq => exact Except.noConfusion h
    case h_2 sub heq =>
      split at h
      case h_1 e heq2 => exact Except.noConfusion h
      case h_2 tail heq2 =>
        cases h
        rcases List.mem_append.mp hmem with hm | hm
        · rcases List.mem_append.mp hm with hm2 | hm2
          · by_cases hd : cb.hasDir
            · rw [if_pos hd] at hm2
              exact VisitEvent.noConfusion (List.mem_singleton.mp hm2)
            · rw [if_neg hd] at hm2
              cases hm2
          · by_cases hr : sel.recursive
            · rw [if_pos hr] at heq
              exact VisitServer_mem server [] sel cb sub s heq hm2
            · rw [if_neg hr] at heq
              cases heq
              cases hm2
        · exact ih tail heq2 hm

theorem readNode_bad (server : ContentDirectoryService) (objid : Str)
    (h : (server.getMetadata objid).length ≠ 1) :
    ReadNode server objid = .error UpnpError.badResource := by
  rw [ReadNode]
  cases hm : server.getMetadata objid with
  | nil => rfl
  | cons a t =>
    cases t with
    | nil => rw [hm] at h; simp at h
    | cons b t2 => rfl

theorem readNode_ok (server : ContentDirectoryService) (objid : Str)
    (o : UPnPDirObject) (h : ReadNode server objid = .ok o) :
    server.getMetadata objid = [o] := by
  rw [ReadNode] at h
  cases hm : server.getMetadata objid with
  | nil => rw [hm] at h; exact Except.noConfusion h
  | cons a t =>
    cases t with
    | nil =>
      rw [hm] at h
      simp only [Except.ok.injEq] at h
      rw [h]
    | cons b t2 => rw [hm] at h; exact Except.noConfusion h

/-! Claim theorems. -/

/-- C1: for every server scope and slash-separated path (server selector
already stripped), the path resolver walks the path one segment at a time
starting from the root sentinel id, listing children and matching the next
segment by exact name; if no child matches it fails NotFound; if path
remains but the matched child is not a container it fails NotFound; when
the path is exhausted it returns the last matched object, and for the
empty path it returns the root object itself. Stated as: the embedded
Namei loop equals the segment-by-segment reference resolver of the spec on
the path's segment list. -/
theorem upnp_c1_path_resolver (server : ContentDirectoryService) (uri : Str) :
    Namei server uri = resolveSegs server (segsOf uri) :=
  namei_resolve server uri

/-- C2: for every filter and advertised searchable-field set, the query
translator maps each predicate as the spec says — the wildcard predicate
expands into a parenthesized OR across every advertised field with the
predicate's operator, fold_case selects "contains" over exact "=", and the
translated predicates are joined with "and", left to right, in filter
order. Stated as: the condition string built by the embedded SearchSongs
loop equals the spec's per-predicate translation joined with "and". -/
theorem upnp_c2_query_translation (caps : List Str) (items : List FilterItem) :
    buildCond caps items = translateQuerySpec caps items :=
  buildCond_eq caps items

/-- C7: for every server name (without slash) and non-empty object id,
decoding the synthetic path server/0/id yields the id, and re-encoding the
fetched object's (identical) id reproduces the very same string. -/
theorem upnp_c7_synthetic_roundtrip (server id : Str)
    (hs : '/' ∉ server) (hid : id ≠ []) :
    AfterRootIdSegment ((splitOnSlash (songPath server id)).2) = some id ∧
    songPath ((splitOnSlash (songPath server id)).1) id = songPath server id := by
  have h1 : splitOnSlash (songPath server id) = (server, '0' :: '/' :: id) := by
    rw [songPath_eq]
    exact splitOnSlash_append server _ hs
  rw [h1]
  exact ⟨afterRootId_encode id hid, rfl⟩

/-- C7 witness at server "s" and object id "x". -/
theorem upnp_c7_witness :
    AfterRootIdSegment ((splitOnSlash (songPath (str "s") (str "x"))).2) =
      some (str "x") ∧
    songPath ((splitOnSlash (songPath (str "s") (str "x"))).1) (str "x") =
      songPath (str "s") (str "x") :=
  upnp_c7_synthetic_roundtrip (str "s") (str "x") (by decide) (by decide)

/-- C8: for every object id, the single-object fetch returns the object
exactly when the remote "get metadata" primitive returns exactly one
object; zero or several results yield the fatal BadResource error, and a
traversal that hits this case aborts with that error, emitting nothing. -/
theorem upnp_c8_read_node (server : ContentDirectoryService) (objid : Str) :
    (∀ o, server.getMetadata objid = [o] → ReadNode server objid = .ok o) ∧
    ((server.getMetadata objid).length ≠ 1 →
      ReadNode server objid = .error UpnpError.badResource) ∧
    (∀ o, ReadNode server objid = .ok o → server.getMetadata objid = [o]) ∧
    (∀ (uri : Str) (sel : Selection) (cb : Callbacks),
      AfterRootIdSegment uri = some objid → cb.hasSong = true →
      (server.getMetadata objid).length ≠ 1 →
      VisitServer server uri sel cb = .error UpnpError.badResource) := by
  refine ⟨?_, readNode_bad server objid, readNode_ok server objid, ?_⟩
  · intro o ho
    rw [ReadNode, ho]
  · intro uri sel cb hAfter hsong hlen
    rw [VisitServer, if_neg (afterRootId_ne_rootid uri objid hAfter), hAfter]
    dsimp only
    rw [if_pos hsong, readNode_bad server objid hlen]

/-- C8 witness: a server whose metadata reply is empty. -/
theorem upnp_c8_witness :
    ReadNode server8 (str "x") = Except.error UpnpError.badResource ∧
    VisitServer server8 (str "0/x") sel6 allCb =
      Except.error UpnpError.badResource :=
  ⟨(upnp_c8_read_node server8 (str "x")).2.1 (by decide),
   (upnp_c8_read_node server8 (str "x")).2.2.2 (str "0/x") sel6 allCb
     (by decide) rfl (by decide)⟩

/-- C9: every song-callback candidate produced by any branch of the
traversal engine is checked against the full Selection filter before the
song callback is invoked: every song event of a successful visit satisfies
the Selection's match predicate. -/
theorem upnp_c9_filter_invariant (servers : List ContentDirectoryService)
    (sel : Selection) (cb : Callbacks) (evs : List VisitEvent) (s : LightSong)
    (h : Visit servers sel cb = .ok evs)
    (hmem : VisitEvent.song s ∈ evs) : SelectionMatch sel s = true := by
  rw [Visit] at h
  split at h
  · exact VisitRoot_mem sel cb s servers evs h hmem
  · split at h
    case h_1 e heq => exact Except.noConfusion h
    case h_2 server heq => exact VisitServer_mem server _ sel cb evs s h hmem

/-- C9 witness: a synthetic-path visit that emits one matching song. -/
theorem upnp_c9_witness :
    SelectionMatch sel9
      (mkUpnpSong (musicObj (str "m9") (str "M") 3)
        (songPath (str "s") (str "m9"))) = true :=
  upnp_c9_filter_invariant [server9] sel9 allCb
    [VisitEvent.song (mkUpnpSong (musicObj (str "m9") (str "M") 3)
      (songPath (str "s") (str "m9")))]
    (mkUpnpSong (musicObj (str "m9") (str "M") 3) (songPath (str "s") (str "m9")))
    rfl (List.mem_singleton.mpr rfl)

/-- C10: when the song callback is absent, visiting a synthetic path
completes successfully and emits nothing, for every server — in particular
whatever the metadata primitive would reply, so no wrong-kind NotFound is
ever raised. -/
theorem upnp_c10_no_song_callback (server : ContentDirectoryService)
    (uri id : Str) (sel : Selection) (cb : Callbacks)
    (hsong : cb.hasSong = false) (hAfter : AfterRootIdSegment uri = some id) :
    VisitServer server uri sel cb = .ok [] := by
  rw [VisitServer, if_neg (afterRootId_ne_rootid uri id hAfter), hAfter]
  dsimp only
  rw [if_neg (by simp [hsong])]

/-- C10 witness: no song callback on a synthetic path over a server whose
metadata reply is a non-music container. -/
theorem upnp_c10_witness :
    VisitServer server5 (str "0/x") sel10 noSongCb = Except.ok [] :=
  upnp_c10_no_song_callback server5 (str "0/x") (str "x") sel10 noSongCb
    rfl (by decide)

/-- C3 counterexample: a recursive, filtered visit whose bounded search
returns one music item (and one container), but whose Selection filter
rejects that music item client-side: the search results contain a music
item, yet zero song callbacks are emitted — refuting "one song callback
per music item in the results". -/
theorem upnp_c3_counterexample :
    SearchSongsContent server3 (str "d1") sel3 =
      [musicObj (str "m1") (str "M") 2, containerObj (str "c9") (str "X")] ∧
    VisitServer server3 (str "D") sel3 allCb = Except.ok [] := by
  constructor
  · rfl
  · have h : Namei server3 (str "D") = .ok (containerObj (str "d1") (str "D")) := by
      rw [namei_resolve]; rfl
    rw [VisitServer, h]; rfl

/-- C3 (amended): a recursive visit with a filter on a normal container
path performs one bounded search rooted at the resolved object and emits
one song callback per music item of the results that passes the Selection
filter (when the song callback is supplied), each with the synthetic path
server/0/object-id; non-music results emit nothing. -/
theorem upnp_c3_amended (server : ContentDirectoryService) (uri : Str)
    (sel : Selection) (cb : Callbacks) (tdirent : UPnPDirObject)
    (hrec : sel.recursive = true) (hfil : sel.filter.isSome = true)
    (hAfter : AfterRootIdSegment uri = none) (hroot : uri ≠ rootid)
    (hNamei : Namei server uri = .ok tdirent) :
    VisitServer server uri sel cb =
      .ok (searchEventsSpec server tdirent.id sel cb) := by
  rw [VisitServer, if_neg hroot, hAfter]
  dsimp only
  rw [hNamei]
  dsimp only
  rw [if_pos ⟨hrec, hfil⟩, SearchSongsVisit_eq_spec]

/-- C3 witness: the amended statement applied to the C3 fixture. -/
theorem upnp_c3_witness :
    VisitServer server3 (str "D") sel3 allCb =
      Except.ok (searchEventsSpec server3
        (containerObj (str "d1") (str "D")).id sel3 allCb) :=
  upnp_c3_amended server3 (str "D") sel3 allCb (containerObj (str "d1") (str "D"))
    rfl rfl (by decide) (by decide) (by rw [namei_resolve]; rfl)

/-- C4 counterexample: a non-recursive, unfiltered visit whose resolved
object is a playlist item dispatches no callback at all (the playlist arm
of VisitItem has an empty body), refuting "the matching typed callback
(playlist for playlist items) is dispatched exactly once". -/
theorem upnp_c4_counterexample :
    VisitServer server4 (str "P") sel4 allCb = Except.ok [] := by
  have h : Namei server4 (str "P") = .ok (playlistObj (str "p1") (str "P")) := by
    rw [namei_resolve]; rfl
  rw [VisitServer, h]; rfl

/-- C4 (amended): for a non-recursive (or unfiltered) visit of a normal
path — if the resolved object is an item, a song callback is dispatched
exactly once for a music item when the song callback is present and the
filter matches, while playlist and unknown items dispatch nothing (the
playlist handling is unimplemented); if it is a container, its immediate
children are listed and each child produces a directory callback if it is
a container (when that callback is present), a song callback if it is a
filter-matching music item (when that callback is present), and nothing
otherwise, with each child's path built by appending its name to the
current path, in listing order. -/
theorem upnp_c4_amended (server : ContentDirectoryService) (uri : Str)
    (sel : Selection) (cb : Callbacks) (tdirent : UPnPDirObject)
    (hAfter : AfterRootIdSegment uri = none) (hroot : uri ≠ rootid)
    (hnr : ¬(sel.recursive ∧ sel.filter.isSome))
    (hNamei : Namei server uri = .ok tdirent) :
    (tdirent.type = ObjType.ITEM →
      VisitServer server uri sel cb =
        .ok (itemEventsSpec tdirent (baseUri server sel) sel cb)) ∧
    (tdirent.type = ObjType.CONTAINER →
      (∀ d ∈ server.readDir tdirent.id, d.type ≠ ObjType.UNKNOWN) →
      VisitServer server uri sel cb =
        .ok ((server.readDir tdirent.id).flatMap
          (fun d => childEventsSpec sel cb (Build (baseUri server sel) d.name) d))) := by
  constructor
  · intro hty
    rw [VisitServer, if_neg hroot, hAfter]
    dsimp only
    rw [hNamei]
    dsimp only
    rw [if_neg hnr, if_pos hty, VisitItem_eq_spec]
  · intro hty hunk
    rw [VisitServer, if_neg hroot, hAfter]
    dsimp only
    rw [hNamei]
    dsimp only
    rw [if_neg hnr, if_neg (by simp [hty])]
    congr 1
    exact flatMap_congr _ _ _
      (fun d hd => VisitObject_eq_spec d _ sel cb (hunk d hd))

/-- C4 witness: the amended container case on a listing with a
sub-container, a music item and a playlist item. -/
theorem upnp_c4_witness :
    VisitServer server4w (str "D") sel4w allCb =
      Except.ok ((server4w.readDir (containerObj (str "d1") (str "D")).id).flatMap
        (fun d => childEventsSpec sel4w allCb
          (Build (baseUri server4w sel4w) d.name) d)) :=
  (upnp_c4_amended server4w (str "D") sel4w allCb
    (containerObj (str "d1") (str "D")) (by decide) (by decide) (by decide)
    (by rw [namei_resolve]; rfl)).2 rfl (by decide)

/-- C5 counterexample: resolving the synthetic path s/0/c1, whose object
id fetches a container, through the single-song resolution succeeds and
returns a song built from the container's metadata — GetSong performs no
kind check, refuting "both operations fail with NotFound". -/
theorem upnp_c5_counterexample :
    GetSong [server5] (str "s/0/c1") =
      Except.ok (mkUpnpSong (containerObj (str "c1") (str "C")) (str "s/0/c1")) :=
  rfl

/-- C5 (amended): for a synthetic path whose object id fetches a
non-music object, the visit operation fails NotFound (when a song callback
is supplied) and emits no song; the single-song resolution, however,
succeeds and returns the object wrapped as a song without checking its
kind. -/
theorem upnp_c5_amended :
    (∀ (server : ContentDirectoryService) (uri id : Str) (sel : Selection)
        (cb : Callbacks) (dirent : UPnPDirObject),
      AfterRootIdSegment uri = some id → cb.hasSong = true →
      ReadNode server id = .ok dirent →
      (dirent.type ≠ ObjType.ITEM ∨ dirent.item_class ≠ ItemClass.MUSIC) →
      VisitServer server uri sel cb =
        .error (UpnpError.notFound (str "Not found"))) ∧
    (∀ (servers : List ContentDirectoryService) (name id : Str)
        (server : ContentDirectoryService) (dirent : UPnPDirObject),
      GetServer servers name = .ok server → '/' ∉ name → name ≠ [] →
      id ≠ [] → ReadNode server id = .ok dirent →
      GetSong servers (name ++ '/' :: '0' :: '/' :: id) =
        .ok (mkUpnpSong dirent (name ++ '/' :: '0' :: '/' :: id))) := by
  constructor
  · intro server uri id sel cb dirent hAfter hsong hrn hkind
    rw [VisitServer, if_neg (afterRootId_ne_rootid uri id hAfter), hAfter]
    dsimp only
    rw [if_pos hsong, hrn]
    dsimp only
    rw [if_pos hkind]
  · intro servers name id server dirent hgs hslash hname hid hrn
    have hsplit : splitOnSlash (name ++ '/' :: '0' :: '/' :: id) =
        (name, '0' :: '/' :: id) := splitOnSlash_append name _ hslash
    rw [GetSong, hsplit]
    dsimp only
    rw [if_neg (by simp [hname]), hgs]
    dsimp only
    rw [afterRootId_encode id hid]
    dsimp only
    rw [hrn]

/-- C5 witness: the amended statement at a playlist-item metadata reply. -/
theorem upnp_c5_witness :
    VisitServer server5w (str "0/p1") sel5 allCb =
      Except.error (UpnpError.notFound (str "Not found")) ∧
    GetSong [server5w] (str "t" ++ '/' :: '0' :: '/' :: str "p1") =
      Except.ok (mkUpnpSong (playlistObj (str "p1") (str "P"))
        (str "t" ++ '/' :: '0' :: '/' :: str "p1")) :=
  ⟨upnp_c5_amended.1 server5w (str "0/p1") (str "p1") sel5 allCb
     (playlistObj (str "p1") (str "P")) (by decide) rfl rfl
     (Or.inr (by decide)),
   upnp_c5_amended.2 [server5w] (str "t") (str "p1") server5w
     (playlistObj (str "p1") (str "P")) rfl (by decide) (by decide)
     (by decide) rfl⟩

/-- C6 counterexample: with a top-level object actually named "0", the
single-song resolution of the in-server path "0" performs a normal path
traversal and returns that object as a song — refuting "every operation on
the sentinel path resolves to no song and never attempts traversal". -/
theorem upnp_c6_counterexample :
    GetSong [server6] (str "s/0") =
      Except.ok (mkUpnpSong (musicObj (str "z1") (str "0") 4) (str "s/0")) := by
  have h : Namei server6 (str "0") = .ok (musicObj (str "z1") (str "0") 4) := by
    rw [namei_resolve]; rfl
  have step : GetSong [server6] (str "s/0") =
      (match Namei server6 (str "0") with
       | .error e => .error e
       | .ok dirent => .ok (mkUpnpSong dirent (str "s/0"))) := rfl
  rw [step, h]

/-- C6 (amended): the visit operation on the in-server path exactly equal
to the sentinel "0" emits nothing and performs no traversal; the
single-song resolution does not special-case that path and resolves it by
ordinary path traversal of the literal segment "0". -/
theorem upnp_c6_amended :
    (∀ (server : ContentDirectoryService) (sel : Selection) (cb : Callbacks),
      VisitServer server rootid sel cb = .ok []) ∧
    (∀ (servers : List ContentDirectoryService) (name : Str)
        (server : ContentDirectoryService),
      GetServer servers name = .ok server → '/' ∉ name → name ≠ [] →
      GetSong servers (name ++ str "/0") =
        Except.map (fun d => mkUpnpSong d (name ++ str "/0"))
          (Namei server (str "0"))) := by
  constructor
  · intro server sel cb
    rw [VisitServer, if_pos rfl]
  · intro servers name server hgs hslash hname
    have hsplit : splitOnSlash (name ++ str "/0") = (name, str "0") :=
      splitOnSlash_append name (str "0") hslash
    rw [GetSong, hsplit]
    dsimp only
    rw [if_neg (by simp [hname, str]), hgs]
    dsimp only
    rw [show AfterRootIdSegment (str "0") = none from rfl]
    dsimp only
    cases hn : Namei server (str "0") with
    | error e => rfl
    | ok d => rfl

/-- C6 witness: the amended statement at concrete fixtures. -/
theorem upnp_c6_witness :
    VisitServer server5 rootid sel5 allCb = Except.ok [] ∧
    GetSong [server6w] (str "s" ++ str "/0") =
      Except.map (fun d => mkUpnpSong d (str "s" ++ str "/0"))
        (Namei server6w (str "0")) :=
  ⟨upnp_c6_amended.1 server5 sel5 allCb,
   upnp_c6_amended.2 [server6w] (str "s") server6w rfl (by decide) (by decide)⟩

end Upnp
